import Mathlib

/-!
Verification development for the rusb USB library.

The definitions below are shallow embeddings of the Rust sources under
src/rusb/src.  Machine integers are modelled as Nat (u8/u16/u32/usize) or
Int (c_int, raw OS error codes); byte slices are modelled as List Nat;
fallible Rust functions returning Result are modelled with Except; kernel
calls (ioctl submissions, WinUSB calls, sink writes) are modelled as
oracle parameters, and the submissions actually issued are returned as an
explicit trace so that claims about which syscalls happen are statable.
-/

namespace Rusb

/-- Error type of the library, from src/rusb/src/lib.rs lines 315 to 323.
The closed set of constructors is Os (an OS level error code),
NotSupported and Unknown. -/
inductive Error
| Os : Int → Error
| NotSupported : Error
| Unknown : Error
deriving DecidableEq

/-- Logical direction of a USB transfer, from src/rusb/src/lib.rs. -/
inductive TransferDirection
| In : TransferDirection
| Out : TransferDirection
deriving DecidableEq

/-- Setup packet metadata for a USB control transfer, from src/rusb/src/lib.rs.
Fields request_type and request are u8, value and index are u16. -/
structure ControlRequest where
  request_type : Nat
  request : Nat
  value : Nat
  index : Nat
deriving DecidableEq

/-- Data payload for a control transfer, from src/rusb/src/lib.rs: no payload,
an IN buffer to fill, or an OUT payload.  Both slices are modelled by the list
of their bytes. -/
inductive ControlTransferData
| none : ControlTransferData
| In : List Nat → ControlTransferData
| Out : List Nat → ControlTransferData
deriving DecidableEq

/-- ControlTransferData::len from src/rusb/src/lib.rs lines 257 to 263. -/
def ControlTransferData.len : ControlTransferData → Nat
| .none => 0
| .In buf => buf.length
| .Out buf => buf.length

/-- ControlTransferData::direction from src/rusb/src/lib.rs lines 265 to 271. -/
def ControlTransferData.direction : ControlTransferData → Option TransferDirection
| .none => Option.none
| .In _ => some TransferDirection.In
| .Out _ => some TransferDirection.Out

/-- Buffer wrapper for bulk and interrupt transfers, from src/rusb/src/lib.rs. -/
inductive TransferBuffer
| In : List Nat → TransferBuffer
| Out : List Nat → TransferBuffer
deriving DecidableEq

/-- TransferBuffer::len from src/rusb/src/lib.rs lines 281 to 286. -/
def TransferBuffer.len : TransferBuffer → Nat
| .In buf => buf.length
| .Out buf => buf.length

/-- TransferBuffer::direction from src/rusb/src/lib.rs lines 288 to 293. -/
def TransferBuffer.direction : TransferBuffer → TransferDirection
| .In _ => TransferDirection.In
| .Out _ => TransferDirection.Out

/-- Direction derived from bit 7 of the request_type byte.  This expression
appears verbatim in the linux, windows and wasm backends, for example
src/rusb/src/platform/linux.rs lines 268 to 272. -/
def setup_direction (request_type : Nat) : TransferDirection :=
  if request_type &&& 0x80 ≠ 0 then TransferDirection.In else TransferDirection.Out

/-- The invalid argument error of the usbfs backend,
src/rusb/src/platform/linux.rs lines 431 to 433: it is built as
Error::from(io::Error::from_raw_os_error(libc::EINVAL)), and the From
conversion in src/rusb/src/lib.rs lines 337 to 341 turns that into
Error::Os(22) since EINVAL is 22 on Linux. -/
def invalid_argument : Error := Error.Os 22

/-- usize_to_u16 from src/rusb/src/platform/linux.rs lines 415 to 421. -/
def usize_to_u16 (value : Nat) : Except Error Nat :=
  if value > 65535 then .error invalid_argument else .ok value

/-- usize_to_u32 from src/rusb/src/platform/linux.rs lines 423 to 429. -/
def usize_to_u32 (value : Nat) : Except Error Nat :=
  if value > 4294967295 then .error invalid_argument else .ok value

/-- duration_to_timeout from src/rusb/src/platform/linux.rs lines 407 to 413,
with the duration given in milliseconds: zero means no timeout, a positive
duration saturates at the u32 maximum. -/
def duration_to_timeout (timeout_ms : Nat) : Nat :=
  if timeout_ms = 0 then 0 else min timeout_ms 4294967295

/-- The usbfs control transfer structure handed to the USBDEVFS_CONTROL ioctl,
src/rusb/src/platform/linux.rs lines 72 to 81.  The data pointer is omitted:
the payload is carried by the ControlTransferData argument. -/
structure UsbfsCtrlTransfer where
  request_type : Nat
  request : Nat
  value : Nat
  index : Nat
  length : Nat
  timeout : Nat
deriving DecidableEq

/-- Tail of linux control_transfer after the direction check,
src/rusb/src/platform/linux.rs lines 278 to 299: length conversion, building
the usbfs structure and submitting the ioctl.  The submit oracle stands for
the USBDEVFS_CONTROL ioctl together with its errno translation; the returned
list is the trace of submissions issued. -/
def linux_control_submit (submit : UsbfsCtrlTransfer → Except Error Nat)
    (request : ControlRequest) (data : ControlTransferData) (timeout_ms : Nat) :
    Except Error Nat × List UsbfsCtrlTransfer :=
  match usize_to_u16 data.len with
  | .error e => (.error e, [])
  | .ok length =>
      let transfer : UsbfsCtrlTransfer :=
        { request_type := request.request_type, request := request.request,
          value := request.value, index := request.index,
          length := length, timeout := duration_to_timeout timeout_ms }
      (submit transfer, [transfer])

/-- control_transfer of the usbfs backend, src/rusb/src/platform/linux.rs
lines 259 to 300: when the payload carries a direction tag it must match
bit 7 of request_type, otherwise the transfer is rejected with the
invalid argument error before any submission. -/
def linux_control_transfer (submit : UsbfsCtrlTransfer → Except Error Nat)
    (request : ControlRequest) (data : ControlTransferData) (timeout_ms : Nat) :
    Except Error Nat × List UsbfsCtrlTransfer :=
  match data.direction with
  | some direction =>
      if direction ≠ setup_direction request.request_type then
        (.error invalid_argument, [])
      else
        linux_control_submit submit request data timeout_ms
  | Option.none => linux_control_submit submit request data timeout_ms

/-- WINUSB_SETUP_PACKET as filled by the windows backend,
src/rusb/src/platform/windows.rs lines 245 to 251. -/
structure WinUsbSetupPacket where
  RequestType : Nat
  Request : Nat
  Value : Nat
  Index : Nat
  Length : Nat
deriving DecidableEq

/-- usize_to_u16 of the windows backend,
src/rusb/src/platform/windows.rs lines 406 to 410: overflow is reported as
NotSupported there. -/
def windows_usize_to_u16 (value : Nat) : Except Error Nat :=
  if value > 65535 then .error Error.NotSupported else .ok value

/-- Tail of windows control_transfer after the direction check,
src/rusb/src/platform/windows.rs lines 244 to 291: length conversion, setup
packet construction, the pipe policy timeout call (set_timeout oracle) and
the WinUsb_ControlTransfer call (submit oracle).  The ensure_u32_len check
cannot fail here because the length already fits in a u16. -/
def windows_control_submit (set_timeout : Except Error Unit)
    (submit : WinUsbSetupPacket → Except Error Nat)
    (request : ControlRequest) (data : ControlTransferData) :
    Except Error Nat × List WinUsbSetupPacket :=
  match windows_usize_to_u16 data.len with
  | .error e => (.error e, [])
  | .ok length =>
      let setup : WinUsbSetupPacket :=
        { RequestType := request.request_type, Request := request.request,
          Value := request.value, Index := request.index, Length := length }
      match set_timeout with
      | .error e => (.error e, [])
      | .ok _ => (submit setup, [setup])

/-- control_transfer of the windows backend,
src/rusb/src/platform/windows.rs lines 227 to 292: a direction mismatch is
rejected with Error::NotSupported before any WinUSB call. -/
def windows_control_transfer (set_timeout : Except Error Unit)
    (submit : WinUsbSetupPacket → Except Error Nat)
    (request : ControlRequest) (data : ControlTransferData) :
    Except Error Nat × List WinUsbSetupPacket :=
  match data.direction with
  | some direction =>
      if direction ≠ setup_direction request.request_type then
        (.error Error.NotSupported, [])
      else
        windows_control_submit set_timeout submit request data
  | Option.none => windows_control_submit set_timeout submit request data

/-- submit_bulk of the usbfs backend, src/rusb/src/platform/linux.rs lines
386 to 405: a negative ioctl result is translated through
Error::from(io::Error::last_os_error()), which by the From conversion in
src/rusb/src/lib.rs lines 337 to 341 is Error::Os(errno) for every errno;
a non negative result is the byte count. -/
def submit_bulk (ioctl_result : Int) (errno : Int) : Except Error Nat :=
  if ioctl_result < 0 then .error (Error.Os errno) else .ok ioctl_result.toNat

/-- Record of one bulk submission made by the chunking loops: the buffer
offset it started at, the chunk size requested, and the byte count the
submission reported. -/
structure BulkSubmission where
  offset : Nat
  requested : Nat
  returned : Nat
deriving DecidableEq

/-- max_bulk_chunk from src/rusb/src/platform/linux.rs lines 63 to 69: with
the USBFS_CAP_NO_PACKET_SIZE_LIM capability bit (0x04) the limit is the
minimum of u32::MAX and usize::MAX, which is 4294967295 on a 64 bit host;
without it the limit is MAX_BULK_BUFFER_LENGTH = 16384. -/
def max_bulk_chunk (caps : Nat) : Nat :=
  if caps &&& 0x04 ≠ 0 then 4294967295 else 16384

/-- The loop shared verbatim by transfer_in_chunks (lines 342 to 363) and
transfer_out_chunks (lines 365 to 384) of src/rusb/src/platform/linux.rs;
the two functions differ only in the mutability of the buffer slice.
submit off len stands for the submit_bulk ioctl at buffer offset off, and
the trace accumulates the submissions issued.  fuel bounds the recursion:
the source loop terminates because every continuing iteration advances
total by at least the chunk size, and the entry points below pass enough
fuel; exhaustion yields Option.none. -/
def transfer_chunks_go (submit : Nat → Nat → Except Error Nat) (limit len : Nat) :
    Nat → Nat → List BulkSubmission → Option (Except Error Nat × List BulkSubmission)
| 0, _, _ => Option.none
| fuel + 1, total, trace =>
  if total < len then
    let chunk := min limit (len - total)
    match usize_to_u32 chunk with
    | .error e => some (.error e, trace)
    | .ok chunk_u32 =>
      match submit total chunk_u32 with
      | .error e => some (.error e, trace)
      | .ok r =>
        if r < chunk then some (.ok (total + r), trace ++ [⟨total, chunk, r⟩])
        else transfer_chunks_go submit limit len fuel (total + r) (trace ++ [⟨total, chunk, r⟩])
  else some (.ok total, trace)

/-- transfer_in_chunks from src/rusb/src/platform/linux.rs lines 342 to 363,
started on a buffer of length len with the handle capability word caps. -/
def transfer_in_chunks (submit : Nat → Nat → Except Error Nat) (caps len : Nat) :
    Option (Except Error Nat × List BulkSubmission) :=
  transfer_chunks_go submit (max_bulk_chunk caps) len (len + 1) 0 []

/-- transfer_out_chunks from src/rusb/src/platform/linux.rs lines 365 to 384,
started on a buffer of length len with the handle capability word caps. -/
def transfer_out_chunks (submit : Nat → Nat → Except Error Nat) (caps len : Nat) :
    Option (Except Error Nat × List BulkSubmission) :=
  transfer_chunks_go submit (max_bulk_chunk caps) len (len + 1) 0 []

/-- copy_in_data from src/rusb/src/platform/wasm.rs lines 246 to 259: the
DataView is modelled by the list of bytes it holds (or Option.none when the
browser returned no data); the function copies min of the view length and
the target length and returns that count. -/
def copy_in_data (view : Option (List Nat)) (target_len : Nat) : Nat :=
  match view with
  | some bytes => min bytes.length target_len
  | Option.none => 0

/-- The escaping loop of send_slip_frame,
src/rusb/src/support/esp32.rs lines 148 to 156: 0xC0 becomes 0xDB 0xDC,
0xDB becomes 0xDB 0xDD, every other byte is copied. -/
def slip_escape : List Nat → List Nat
| [] => []
| b :: rest =>
  (if b = 0xC0 then [0xDB, 0xDC] else if b = 0xDB then [0xDB, 0xDD] else [b]) ++
    slip_escape rest

/-- The frame built by send_slip_frame, src/rusb/src/support/esp32.rs lines
142 to 159: a 0xC0 boundary, the escaped payload, a closing 0xC0.  The
write call itself is not part of the framing. -/
def send_slip_frame (payload : List Nat) : List Nat :=
  0xC0 :: (slip_escape payload ++ [0xC0])

/-- Outcome of the receive side SLIP decoder on a finite byte stream:
a completed packet, the Error::Unknown result on a bad escape byte, or
pending when the stream ran out while the loop would have kept calling
read for more bytes. -/
inductive SlipOutcome
| ok : List Nat → SlipOutcome
| err : SlipOutcome
| pending : SlipOutcome
deriving DecidableEq

/-- The byte processing loop of receive_slip_frame,
src/rusb/src/support/esp32.rs lines 161 to 199, with state packet, escaped,
started exactly as in the source.  The source reads the stream in bulk
chunks of up to 64 bytes and processes it byte by byte, so the
concatenated stream determines the behaviour; zero length reads are
skipped by the source loop and add nothing to the stream. -/
def receive_slip_loop : List Nat → List Nat → Bool → Bool → SlipOutcome
| [], _, _, _ => SlipOutcome.pending
| b :: rest, packet, escaped, started =>
  if b = 0xC0 then
    if started then
      if packet ≠ [] then SlipOutcome.ok packet
      else receive_slip_loop rest packet escaped started
    else receive_slip_loop rest packet escaped true
  else if b = 0xDB then
    receive_slip_loop rest packet true started
  else if escaped then
    if b = 0xDC then receive_slip_loop rest (packet ++ [0xC0]) false started
    else if b = 0xDD then receive_slip_loop rest (packet ++ [0xDB]) false started
    else SlipOutcome.err
  else if started then
    receive_slip_loop rest (packet ++ [b]) escaped started
  else
    receive_slip_loop rest packet escaped started

/-- receive_slip_frame from src/rusb/src/support/esp32.rs lines 161 to 199,
applied to the finite stream of bytes delivered by the bulk reads. -/
def receive_slip_frame (stream : List Nat) : SlipOutcome :=
  receive_slip_loop stream [] false false

/-- compute_ftdi_divisor from src/rusb/src/support/ftdi.rs lines 278 to 289:
zero baud is refused; otherwise the divisor is the base clock 3000000
shifted left by 3 and divided by baud, clamped below at 1 and above at
0x1FFFF (max is applied first, then min, as in the source). -/
def compute_ftdi_divisor (baud : Nat) : Option Nat :=
  if baud = 0 then Option.none
  else
    let base_clock := 3000000
    let divisor := max ((base_clock <<< 3) / baud) 1
    some (min divisor 0x1FFFF)

/-- The four numeric fields of the control request issued by set_baud_rate,
src/rusb/src/support/ftdi.rs lines 127 to 144. -/
structure FtdiBaudRequest where
  request_type : Nat
  request : Nat
  value : Nat
  index : Nat
deriving DecidableEq

/-- The control request built by set_baud_rate,
src/rusb/src/support/ftdi.rs lines 127 to 136: request type 0x40, request
FTDI_SIO_SET_BAUDRATE_REQUEST = 3, value the low 16 bits of the divisor,
index the remaining divisor bits combined with the interface number (a u8)
shifted into the high byte. -/
def set_baud_rate_request (interface : Nat) (baud : Nat) : Option FtdiBaudRequest :=
  (compute_ftdi_divisor baud).map fun divisor =>
    { request_type := 0x40, request := 3,
      value := divisor &&& 0xFFFF,
      index := ((divisor >>> 16) &&& 0xFFFF) ||| (interface <<< 8) }

/-- The poll timeout decoded by wait_while_busy,
src/rusb/src/support/stm32.rs line 143: u32::from_le_bytes of status bytes
1 to 3 with a zero top byte, that is a 24 bit little endian value. -/
def poll_timeout_of (buf : List Nat) : Nat :=
  buf.getD 1 0 + 256 * buf.getD 2 0 + 65536 * buf.getD 3 0

/-- wait_while_busy from src/rusb/src/support/stm32.rs lines 132 to 146.
get_status k is the DFU_GETSTATUS oracle at poll number k, yielding the six
status bytes; elapsed_ms k is the wall clock reading compared against the
timeout after poll k; the returned list records the sleep durations taken
between polls.  fuel bounds the recursion (the real loop can genuinely run
for as long as the device stays busy within the timeout); exhaustion yields
Option.none. -/
def wait_while_busy (get_status : Nat → Except Error (List Nat))
    (elapsed_ms : Nat → Nat) (timeout_ms : Nat) :
    Nat → Nat → List Nat → Option (Except Error Unit × List Nat)
| 0, _, _ => Option.none
| fuel + 1, k, sleeps =>
  match get_status k with
  | .error e => some (.error e, sleeps)
  | .ok buf =>
    if buf.getD 0 0 = 0 then some (.ok (), sleeps)
    else if elapsed_ms k > timeout_ms then some (.error Error.Unknown, sleeps)
    else wait_while_busy get_status elapsed_ms timeout_ms fuel (k + 1)
      (sleeps ++ [poll_timeout_of buf])

/-- A DFU_DNLOAD request: block number and payload bytes, as issued by
download_block in src/rusb/src/support/stm32.rs lines 77 to 91. -/
structure DfuDownload where
  block : Nat
  payload : List Nat
deriving DecidableEq

/-- mass_erase from src/rusb/src/support/stm32.rs lines 149 to 153: download
the two byte command 0x41 0x00 to block 0, then wait_while_busy with a five
second (5000 ms) bound.  The download oracle stands for download_block, and
the second component is the trace of download requests issued. -/
def mass_erase (download : DfuDownload → Except Error Unit)
    (get_status : Nat → Except Error (List Nat)) (elapsed_ms : Nat → Nat)
    (fuel : Nat) : Option (Except Error Unit × List Nat) × List DfuDownload :=
  match download ⟨0, [0x41, 0x00]⟩ with
  | .error e => (some (.error e, []), [⟨0, [0x41, 0x00]⟩])
  | .ok _ => (wait_while_busy get_status elapsed_ms 5000 fuel 0 [], [⟨0, [0x41, 0x00]⟩])

/-- ChannelLogger::write from src/rusb/src/support/logger.rs lines 41 to 50:
the bulk transfer result comes first; on success the log line is written to
the sink, and a sink failure is mapped to Error::Unknown and propagated by
the question mark operator.  The sink oracle abstracts log_frame. -/
def channel_logger_write (bulk_result : Except Error Nat)
    (sink_result : Except Unit Unit) : Except Error Nat :=
  match bulk_result with
  | .error e => .error e
  | .ok written =>
    match sink_result with
    | .error _ => .error Error.Unknown
    | .ok _ => .ok written

/-- ChannelLogger::read from src/rusb/src/support/logger.rs lines 53 to 62:
same structure as write with the IN endpoint and the RX label. -/
def channel_logger_read (bulk_result : Except Error Nat)
    (sink_result : Except Unit Unit) : Except Error Nat :=
  match bulk_result with
  | .error e => .error e
  | .ok len =>
    match sink_result with
    | .error _ => .error Error.Unknown
    | .ok _ => .ok len

/-- is_high_surrogate check used to model String::from_utf16. -/
def is_high_surrogate (u : Nat) : Bool := decide (0xD800 ≤ u) && decide (u ≤ 0xDBFF)

/-- is_low_surrogate check used to model String::from_utf16. -/
def is_low_surrogate (u : Nat) : Bool := decide (0xDC00 ≤ u) && decide (u ≤ 0xDFFF)

/-- Model of String::from_utf16: decodes a list of 16 bit code units into the
list of scalar values of the resulting string, or Option.none on invalid
UTF-16 (an unpaired surrogate).  Every non surrogate unit decodes to itself;
a high surrogate must be followed by a low surrogate. -/
def utf16_chars : List Nat → Option (List Nat)
| [] => some []
| u :: rest =>
  if is_high_surrogate u then
    match rest with
    | [] => Option.none
    | v :: rest2 =>
      if is_low_surrogate v then
        (utf16_chars rest2).map fun cs => (0x10000 + (u - 0xD800) * 1024 + (v - 0xDC00)) :: cs
      else Option.none
  else if is_low_surrogate u then Option.none
  else (utf16_chars rest).map fun cs => u :: cs

/-- read_string_descriptor_ascii from src/rusb/src/lib.rs lines 198 to 223,
as a function of the result of the underlying one second GET_DESCRIPTOR
control transfer: the transferred byte count len and the final contents of
the 255 byte zero initialised buffer.  len < 2 and a type byte other than
0x03 fail with Error::Unknown; then utf16_len = (b_length - 2) / 2 code
units are assembled little endian from the buffer and decoded as UTF-16,
with a decode failure mapped to Error::Unknown and the string modelled by
its scalar values.  When b_length (the first buffer byte) is below 2 while
len is at least 2, the source computes b_length - 2 on a usize: that
subtraction overflows and the function panics (overflow check in debug, an
out of bounds buffer index in release); the result Option.none models that
panic. -/
def read_string_descriptor_ascii (transfer_result : Except Error (Nat × List Nat)) :
    Option (Except Error (List Nat)) :=
  match transfer_result with
  | .error e => some (.error e)
  | .ok (len, buf) =>
    if len < 2 then some (.error Error.Unknown)
    else
      let b_length := buf.getD 0 0
      let b_descriptor_type := buf.getD 1 0
      if b_descriptor_type ≠ 0x03 then some (.error Error.Unknown)
      else if b_length < 2 then Option.none
      else
        let utf16_len := (b_length - 2) / 2
        let utf16 := (List.range utf16_len).map fun i =>
          buf.getD (2 + i * 2) 0 + 256 * buf.getD (2 + i * 2 + 1) 0
        some (match utf16_chars utf16 with
              | Option.none => .error Error.Unknown
              | some cs => .ok cs)

/-! Helper lemmas shared by the claim theorems. -/

theorem linux_control_transfer_mismatch
    (submit : UsbfsCtrlTransfer → Except Error Nat) (request : ControlRequest)
    (data : ControlTransferData) (timeout_ms : Nat) (d : TransferDirection)
    (hdir : data.direction = some d) (hne : d ≠ setup_direction request.request_type) :
    linux_control_transfer submit request data timeout_ms = (.error invalid_argument, []) := by
  unfold linux_control_transfer
  rw [hdir]
  simp [hne]

theorem windows_control_transfer_mismatch
    (set_timeout : Except Error Unit) (submit : WinUsbSetupPacket → Except Error Nat)
    (request : ControlRequest) (data : ControlTransferData) (d : TransferDirection)
    (hdir : data.direction = some d) (hne : d ≠ setup_direction request.request_type) :
    windows_control_transfer set_timeout submit request data =
      (.error Error.NotSupported, []) := by
  unfold windows_control_transfer
  rw [hdir]
  simp [hne]

theorem linux_control_submit_ok
    (submit : UsbfsCtrlTransfer → Except Error Nat) (request : ControlRequest)
    (data : ControlTransferData) (timeout_ms : Nat) (hle : data.len ≤ 65535) :
    linux_control_submit submit request data timeout_ms =
      (submit { request_type := request.request_type, request := request.request,
                value := request.value, index := request.index,
                length := data.len, timeout := duration_to_timeout timeout_ms },
       [{ request_type := request.request_type, request := request.request,
          value := request.value, index := request.index,
          length := data.len, timeout := duration_to_timeout timeout_ms }]) := by
  unfold linux_control_submit usize_to_u16
  simp [Nat.not_lt.mpr hle]

theorem windows_control_submit_ok
    (submit : WinUsbSetupPacket → Except Error Nat) (request : ControlRequest)
    (data : ControlTransferData) (hle : data.len ≤ 65535) :
    windows_control_submit (.ok ()) submit request data =
      (submit { RequestType := request.request_type, Request := request.request,
                Value := request.value, Index := request.index, Length := data.len },
       [{ RequestType := request.request_type, Request := request.request,
          Value := request.value, Index := request.index, Length := data.len }]) := by
  unfold windows_control_submit windows_usize_to_u16
  simp [Nat.not_lt.mpr hle]

theorem linux_control_transfer_match
    (submit : UsbfsCtrlTransfer → Except Error Nat) (request : ControlRequest)
    (data : ControlTransferData) (timeout_ms : Nat) (d : TransferDirection)
    (hdir : data.direction = some d) (heq : d = setup_direction request.request_type) :
    linux_control_transfer submit request data timeout_ms =
      linux_control_submit submit request data timeout_ms := by
  unfold linux_control_transfer
  rw [hdir]
  simp [heq]

theorem windows_control_transfer_match
    (set_timeout : Except Error Unit) (submit : WinUsbSetupPacket → Except Error Nat)
    (request : ControlRequest) (data : ControlTransferData) (d : TransferDirection)
    (hdir : data.direction = some d) (heq : d = setup_direction request.request_type) :
    windows_control_transfer set_timeout submit request data =
      windows_control_submit set_timeout submit request data := by
  unfold windows_control_transfer
  rw [hdir]
  simp [heq]

theorem transfer_chunks_go_le (submit : Nat → Nat → Except Error Nat) (limit len : Nat)
    (hsub : ∀ off c r, submit off c = .ok r → r ≤ c) :
    ∀ fuel total trace t tr, total ≤ len →
      transfer_chunks_go submit limit len fuel total trace = some (.ok t, tr) →
      t ≤ len := by
  intro fuel
  induction fuel with
  | zero =>
    intro total trace t tr _ hc
    simp [transfer_chunks_go] at hc
  | succ n ih =>
    intro total trace t tr hle hc
    simp only [transfer_chunks_go] at hc
    by_cases hlt : total < len
    · rw [if_pos hlt] at hc
      have hchunk_le : min limit (len - total) ≤ len - total := Nat.min_le_right _ _
      cases hu : usize_to_u32 (min limit (len - total)) with
      | error e => rw [hu] at hc; simp at hc
      | ok c32 =>
        rw [hu] at hc
        dsimp only at hc
        have hc32 : c32 = min limit (len - total) := by
          unfold usize_to_u32 at hu
          by_cases hbig : min limit (len - total) > 4294967295
          · rw [if_pos hbig] at hu; cases hu
          · rw [if_neg hbig] at hu; cases hu; rfl
        cases hs : submit total c32 with
        | error e => rw [hs] at hc; simp at hc
        | ok r =>
          rw [hs] at hc
          dsimp only at hc
          have hr : r ≤ min limit (len - total) := hc32 ▸ hsub total c32 r hs
          by_cases hshort : r < min limit (len - total)
          · rw [if_pos hshort] at hc
            simp only [Option.some.injEq, Prod.mk.injEq, Except.ok.injEq] at hc
            omega
          · rw [if_neg hshort] at hc
            exact ih (total + r) _ t tr (by omega) hc
    · rw [if_neg hlt] at hc
      simp only [Option.some.injEq, Prod.mk.injEq, Except.ok.injEq] at hc
      omega

theorem transfer_chunks_go_requested (submit : Nat → Nat → Except Error Nat)
    (limit len : Nat) :
    ∀ fuel total trace res tr,
      (∀ s ∈ trace, s.requested ≤ limit) →
      transfer_chunks_go submit limit len fuel total trace = some (res, tr) →
      ∀ s ∈ tr, s.requested ≤ limit := by
  intro fuel
  induction fuel with
  | zero =>
    intro total trace res tr _ hc
    simp [transfer_chunks_go] at hc
  | succ n ih =>
    intro total trace res tr hinv hc
    simp only [transfer_chunks_go] at hc
    by_cases hlt : total < len
    · rw [if_pos hlt] at hc
      cases hu : usize_to_u32 (min limit (len - total)) with
      | error e =>
        rw [hu] at hc
        simp only [Option.some.injEq, Prod.mk.injEq] at hc
        exact hc.2 ▸ hinv
      | ok c32 =>
        rw [hu] at hc
        dsimp only at hc
        cases hs : submit total c32 with
        | error e =>
          rw [hs] at hc
          simp only [Option.some.injEq, Prod.mk.injEq] at hc
          exact hc.2 ▸ hinv
        | ok r =>
          rw [hs] at hc
          dsimp only at hc
          have hnew : ∀ s ∈ trace ++ [BulkSubmission.mk total (min limit (len - total)) r],
              s.requested ≤ limit := by
            intro s hmem
            rcases List.mem_append.mp hmem with h | h
            · exact hinv s h
            · rcases List.mem_singleton.mp h with rfl
              exact Nat.min_le_left _ _
          by_cases hshort : r < min limit (len - total)
          · rw [if_pos hshort] at hc
            simp only [Option.some.injEq, Prod.mk.injEq] at hc
            exact hc.2 ▸ hnew
          · rw [if_neg hshort] at hc
            exact ih (total + r) _ res tr hnew hc
    · rw [if_neg hlt] at hc
      simp only [Option.some.injEq, Prod.mk.injEq] at hc
      exact hc.2 ▸ hinv

theorem transfer_chunks_go_short_stops (submit : Nat → Nat → Except Error Nat)
    (limit len : Nat) :
    ∀ fuel total trace res tr,
      (∀ s ∈ trace, s.requested ≤ s.returned) →
      transfer_chunks_go submit limit len fuel total trace = some (res, tr) →
      ∀ s ∈ tr.dropLast, s.requested ≤ s.returned := by
  intro fuel
  induction fuel with
  | zero =>
    intro total trace res tr _ hc
    simp [transfer_chunks_go] at hc
  | succ n ih =>
    intro total trace res tr hinv hc
    simp only [transfer_chunks_go] at hc
    by_cases hlt : total < len
    · rw [if_pos hlt] at hc
      cases hu : usize_to_u32 (min limit (len - total)) with
      | error e =>
        rw [hu] at hc
        simp only [Option.some.injEq, Prod.mk.injEq] at hc
        exact fun s hmem => hinv s (List.dropLast_subset _ (hc.2 ▸ hmem))
      | ok c32 =>
        rw [hu] at hc
        dsimp only at hc
        cases hs : submit total c32 with
        | error e =>
          rw [hs] at hc
          simp only [Option.some.injEq, Prod.mk.injEq] at hc
          exact fun s hmem => hinv s (List.dropLast_subset _ (hc.2 ▸ hmem))
        | ok r =>
          rw [hs] at hc
          dsimp only at hc
          by_cases hshort : r < min limit (len - total)
          · rw [if_pos hshort] at hc
            simp only [Option.some.injEq, Prod.mk.injEq] at hc
            intro s hmem
            rw [← hc.2, List.dropLast_concat] at hmem
            exact hinv s hmem
          · rw [if_neg hshort] at hc
            have hnew : ∀ s ∈ trace ++ [BulkSubmission.mk total (min limit (len - total)) r],
                s.requested ≤ s.returned := by
              intro s hmem
              rcases List.mem_append.mp hmem with h | h
              · exact hinv s h
              · rcases List.mem_singleton.mp h with rfl
                exact Nat.not_lt.mp hshort
            exact ih (total + r) _ res tr hnew hc
    · rw [if_neg hlt] at hc
      simp only [Option.some.injEq, Prod.mk.injEq] at hc
      exact fun s hmem => hinv s (List.dropLast_subset _ (hc.2 ▸ hmem))

theorem linux_control_submit_le (submit : UsbfsCtrlTransfer → Except Error Nat)
    (request : ControlRequest) (data : ControlTransferData) (timeout_ms : Nat)
    (n : Nat) (tr : List UsbfsCtrlTransfer)
    (hsub : ∀ t r, submit t = .ok r → r ≤ t.length)
    (h : linux_control_submit submit request data timeout_ms = (.ok n, tr)) :
    n ≤ data.len := by
  by_cases hle : data.len ≤ 65535
  · rw [linux_control_submit_ok submit request data timeout_ms hle] at h
    exact hsub _ n (congrArg Prod.fst h)
  · unfold linux_control_submit usize_to_u16 at h
    rw [if_pos (by omega)] at h
    simp at h

/-! Claim theorems. -/

/-- C1 (amended): for every control transfer whose payload is non empty, a
mismatch between the payload direction tag and bit 7 of request_type makes
control_transfer reject the transfer before any backend submission, the
usbfs backend with its invalid argument error (Error.Os 22, built from the
EINVAL errno) and the WinUSB backend with Error.NotSupported; when the
directions agree the check does not reject, and for payloads within the
u16 length bound a single backend submission carrying the payload length
is issued. -/
theorem C1_control_direction_check
    (lsubmit : UsbfsCtrlTransfer → Except Error Nat)
    (set_timeout : Except Error Unit)
    (wsubmit : WinUsbSetupPacket → Except Error Nat)
    (request : ControlRequest) (data : ControlTransferData) (timeout_ms : Nat)
    (hne : data.len ≠ 0) :
    (data.direction ≠ some (setup_direction request.request_type) →
      linux_control_transfer lsubmit request data timeout_ms =
        (.error invalid_argument, []) ∧
      windows_control_transfer set_timeout wsubmit request data =
        (.error Error.NotSupported, [])) ∧
    (data.direction = some (setup_direction request.request_type) →
      data.len ≤ 65535 →
      (∃ t, linux_control_transfer lsubmit request data timeout_ms = (lsubmit t, [t]) ∧
         t.length = data.len) ∧
      (set_timeout = .ok () →
        ∃ s, windows_control_transfer set_timeout wsubmit request data = (wsubmit s, [s]) ∧
          s.Length = data.len)) := by
  obtain ⟨d, hdir⟩ : ∃ d, data.direction = some d := by
    cases data with
    | none => simp [ControlTransferData.len] at hne
    | In buf => exact ⟨TransferDirection.In, rfl⟩
    | Out buf => exact ⟨TransferDirection.Out, rfl⟩
  constructor
  · intro hmis
    have hd : d ≠ setup_direction request.request_type := by
      intro h; exact hmis (h ▸ hdir)
    exact ⟨linux_control_transfer_mismatch lsubmit request data timeout_ms d hdir hd,
           windows_control_transfer_mismatch set_timeout wsubmit request data d hdir hd⟩
  · intro hag hle
    have hd : d = setup_direction request.request_type := by
      rw [hdir] at hag; exact Option.some_injective _ hag
    constructor
    · have h := linux_control_submit_ok lsubmit request data timeout_ms hle
      rw [linux_control_transfer_match lsubmit request data timeout_ms d hdir hd]
      exact ⟨_, h, rfl⟩
    · intro hst
      subst hst
      have h := windows_control_submit_ok wsubmit request data hle
      rw [windows_control_transfer_match _ wsubmit request data d hdir hd]
      exact ⟨_, h, rfl⟩

/-- C1 witness: a concrete four byte OUT payload whose direction disagrees
with the IN bit of request_type is rejected by both backends. -/
theorem C1_control_direction_check_witness :
    (ControlTransferData.Out [1, 2, 3, 4]).len ≠ 0 ∧
    ((ControlTransferData.Out [1, 2, 3, 4]).direction ≠
        some (setup_direction (ControlRequest.mk 0x80 6 0 0).request_type) →
      linux_control_transfer (fun _ => .ok 0) ⟨0x80, 6, 0, 0⟩
          (ControlTransferData.Out [1, 2, 3, 4]) 1000 = (.error invalid_argument, []) ∧
      windows_control_transfer (.ok ()) (fun _ => .ok 0) ⟨0x80, 6, 0, 0⟩
          (ControlTransferData.Out [1, 2, 3, 4]) = (.error Error.NotSupported, [])) :=
  ⟨by decide,
   (C1_control_direction_check (fun _ => .ok 0) (.ok ()) (fun _ => .ok 0)
     ⟨0x80, 6, 0, 0⟩ (ControlTransferData.Out [1, 2, 3, 4]) 1000 (by decide)).1⟩

/-- C1 counterexample: the claim as stated says the rejection carries the
InvalidArgument error kind; on the WinUSB backend a mismatched non empty
payload is rejected with Error.NotSupported, which is a different error
from the invalid argument error the usbfs backend uses (and from every
Error.Os errno translation). -/
theorem C1_windows_not_invalid_argument :
    windows_control_transfer (.ok ()) (fun _ => .ok 0) ⟨0x80, 6, 0, 0⟩
        (ControlTransferData.Out [1]) = (.error Error.NotSupported, []) ∧
    Error.NotSupported ≠ invalid_argument ∧
    (∀ e : Int, Error.NotSupported ≠ Error.Os e) := by
  refine ⟨rfl, by decide, ?_⟩
  intro e h
  cases h

/-- C2 (amended): the error type of the library is the closed set of
Error.Os code, Error.NotSupported and Error.Unknown, and the usbfs backend
maps the errno of every failing bulk submission uniformly to Error.Os of
that errno; no errno is collapsed into a dedicated Disconnected, Timeout or
InvalidArgument kind. -/
theorem C2_error_taxonomy :
    (∀ r e : Int, r < 0 → submit_bulk r e = .error (Error.Os e)) ∧
    (∀ r e : Int, 0 ≤ r → submit_bulk r e = .ok r.toNat) ∧
    (∀ err : Error, (∃ c, err = Error.Os c) ∨ err = Error.NotSupported ∨
      err = Error.Unknown) := by
  refine ⟨?_, ?_, ?_⟩
  · intro r e h
    simp [submit_bulk, h]
  · intro r e h
    simp [submit_bulk, Int.not_lt.mpr h]
  · intro err
    cases err with
    | Os c => exact Or.inl ⟨c, rfl⟩
    | NotSupported => exact Or.inr (Or.inl rfl)
    | Unknown => exact Or.inr (Or.inr rfl)

/-- C2 witness: the ETIMEDOUT errno 110 on a failing submission becomes
Error.Os 110. -/
theorem C2_error_taxonomy_witness :
    ((-1 : Int) < 0) ∧ submit_bulk (-1) 110 = .error (Error.Os 110) :=
  ⟨by decide, C2_error_taxonomy.1 (-1) 110 (by decide)⟩

/-- C2 counterexample: the claim says ENOENT (errno 2) and ENODEV (errno 19)
are both mapped to one Disconnected kind, hence to the same error value; in
the code a failing submission maps them to Error.Os 2 and Error.Os 19,
which differ, and the error type has no Disconnected, Timeout, Io or
InvalidArgument constructor at all. -/
theorem C2_errno_not_collapsed :
    submit_bulk (-1) 2 = .error (Error.Os 2) ∧
    submit_bulk (-1) 19 = .error (Error.Os 19) ∧
    Error.Os 2 ≠ Error.Os 19 :=
  ⟨rfl, rfl, by decide⟩

/-- C10: the direction consistency check of control_transfer covers every
In or Out tagged payload including zero length buffers, on the usbfs and
WinUSB backends alike: an empty Out payload under an IN request_type (bit 7
set) and an empty In payload under an OUT request_type (bit 7 clear) are
rejected before any submission; only the explicit None payload variant
skips the check, proceeding to a submission for any request_type. -/
theorem C10_empty_payload_checked
    (lsubmit : UsbfsCtrlTransfer → Except Error Nat)
    (wsubmit : WinUsbSetupPacket → Except Error Nat)
    (request : ControlRequest) (timeout_ms : Nat) :
    (request.request_type &&& 0x80 ≠ 0 →
       linux_control_transfer lsubmit request (ControlTransferData.Out []) timeout_ms =
         (.error invalid_argument, []) ∧
       windows_control_transfer (.ok ()) wsubmit request (ControlTransferData.Out []) =
         (.error Error.NotSupported, [])) ∧
    (request.request_type &&& 0x80 = 0 →
       linux_control_transfer lsubmit request (ControlTransferData.In []) timeout_ms =
         (.error invalid_argument, []) ∧
       windows_control_transfer (.ok ()) wsubmit request (ControlTransferData.In []) =
         (.error Error.NotSupported, [])) ∧
    (∃ t, linux_control_transfer lsubmit request ControlTransferData.none timeout_ms =
       (lsubmit t, [t])) ∧
    (∃ s, windows_control_transfer (.ok ()) wsubmit request ControlTransferData.none =
       (wsubmit s, [s])) := by
  refine ⟨?_, ?_, ?_, ?_⟩
  · intro hbit
    have hd : TransferDirection.Out ≠ setup_direction request.request_type := by
      simp [setup_direction, hbit]
    exact ⟨linux_control_transfer_mismatch lsubmit request _ timeout_ms _ rfl hd,
           windows_control_transfer_mismatch (.ok ()) wsubmit request _ _ rfl hd⟩
  · intro hbit
    have hd : TransferDirection.In ≠ setup_direction request.request_type := by
      simp [setup_direction, hbit]
    exact ⟨linux_control_transfer_mismatch lsubmit request _ timeout_ms _ rfl hd,
           windows_control_transfer_mismatch (.ok ()) wsubmit request _ _ rfl hd⟩
  · have h := linux_control_submit_ok lsubmit request ControlTransferData.none timeout_ms
      (by simp [ControlTransferData.len])
    exact ⟨_, h⟩
  · have h := windows_control_submit_ok wsubmit request ControlTransferData.none
      (by simp [ControlTransferData.len])
    exact ⟨_, h⟩

/-- C3 (amended): without the no packet size limit capability bit (caps
word 0), the usbfs bulk loop chunks the buffer into submissions of at most
16384 bytes and stops after the first submission that returns fewer bytes
than it requested; for a 40960 byte OUT buffer exactly three submissions
of sizes 16384, 16384 and 8192 are made, and when the second submission
returns 8192 the total reported is 24576 and the third submission is not
issued. -/
theorem C3_chunked_bulk :
    (transfer_out_chunks (fun _ c => .ok c) 0 40960 =
      some (.ok 40960, [⟨0, 16384, 16384⟩, ⟨16384, 16384, 16384⟩, ⟨32768, 8192, 8192⟩])) ∧
    (transfer_out_chunks (fun off c => if off = 16384 then .ok 8192 else .ok c) 0 40960 =
      some (.ok 24576, [⟨0, 16384, 16384⟩, ⟨16384, 16384, 8192⟩])) ∧
    (∀ (submit : Nat → Nat → Except Error Nat) (len : Nat)
        (res : Except Error Nat) (tr : List BulkSubmission),
      transfer_out_chunks submit 0 len = some (res, tr) →
      (∀ s ∈ tr, s.requested ≤ 16384) ∧
      ∀ s ∈ tr.dropLast, s.requested ≤ s.returned) := by
  refine ⟨rfl, rfl, ?_⟩
  intro submit len res tr hc
  have h16 : max_bulk_chunk 0 = 16384 := by decide
  unfold transfer_out_chunks at hc
  rw [h16] at hc
  exact ⟨transfer_chunks_go_requested submit 16384 len (len + 1) 0 [] res tr
      (by intro s h; simp at h) hc,
    transfer_chunks_go_short_stops submit 16384 len (len + 1) 0 [] res tr
      (by intro s h; simp at h) hc⟩

/-- C3 witness: the general chunking bounds applied to the concrete short
second submission run. -/
theorem C3_chunked_bulk_witness :
    (transfer_out_chunks (fun off c => if off = 16384 then .ok 8192 else .ok c) 0 40960 =
      some (.ok 24576, [⟨0, 16384, 16384⟩, ⟨16384, 16384, 8192⟩])) ∧
    ((∀ s ∈ ([⟨0, 16384, 16384⟩, ⟨16384, 16384, 8192⟩] : List BulkSubmission),
        s.requested ≤ 16384) ∧
     ∀ s ∈ ([⟨0, 16384, 16384⟩, ⟨16384, 16384, 8192⟩] : List BulkSubmission).dropLast,
        s.requested ≤ s.returned) :=
  ⟨rfl,
   C3_chunked_bulk.2.2 (fun off c => if off = 16384 then .ok 8192 else .ok c) 40960
     (.ok 24576) [⟨0, 16384, 16384⟩, ⟨16384, 16384, 8192⟩] rfl⟩

/-- C3 counterexample: the claim as stated says the three submissions for a
40960 byte buffer have sizes 16384, 16384 and 7168; the loop actually
requests 16384, 16384 and 8192 bytes (40960 minus 32768 is 8192, and
16384 plus 16384 plus 7168 is only 39936). -/
theorem C3_third_chunk_is_8192 :
    (transfer_out_chunks (fun _ c => .ok c) 0 40960).map
        (fun p => p.2.map BulkSubmission.requested) = some [16384, 16384, 8192] ∧
    ([16384, 16384, 8192] : List Nat) ≠ [16384, 16384, 7168] :=
  ⟨rfl, by decide⟩

/-- C4: every transfer path that returns successfully reports a byte count
bounded by the supplied buffer length, assuming each backend submission
reports at most the byte count it was asked to transfer: the usbfs control
transfer, the usbfs chunked bulk and interrupt loops (the IN and OUT loops
are the same chunking loop), and the wasm IN data copy. -/
theorem C4_returned_le_buffer :
    (∀ (submit : UsbfsCtrlTransfer → Except Error Nat) (request : ControlRequest)
        (data : ControlTransferData) (timeout_ms n : Nat) (tr : List UsbfsCtrlTransfer),
      (∀ t r, submit t = .ok r → r ≤ t.length) →
      linux_control_transfer submit request data timeout_ms = (.ok n, tr) →
      n ≤ data.len) ∧
    (∀ (submit : Nat → Nat → Except Error Nat) (caps len t : Nat)
        (tr : List BulkSubmission),
      (∀ off c r, submit off c = .ok r → r ≤ c) →
      transfer_in_chunks submit caps len = some (.ok t, tr) → t ≤ len) ∧
    (∀ (submit : Nat → Nat → Except Error Nat) (caps len t : Nat)
        (tr : List BulkSubmission),
      (∀ off c r, submit off c = .ok r → r ≤ c) →
      transfer_out_chunks submit caps len = some (.ok t, tr) → t ≤ len) ∧
    (∀ (view : Option (List Nat)) (target_len : Nat),
      copy_in_data view target_len ≤ target_len) := by
  refine ⟨?_, ?_, ?_, ?_⟩
  · intro submit request data timeout_ms n tr hsub h
    cases data with
    | none => exact linux_control_submit_le submit request _ timeout_ms n tr hsub h
    | In buf =>
      by_cases hd : TransferDirection.In = setup_direction request.request_type
      · rw [linux_control_transfer_match submit request (ControlTransferData.In buf)
          timeout_ms TransferDirection.In rfl hd] at h
        exact linux_control_submit_le submit request _ timeout_ms n tr hsub h
      · rw [linux_control_transfer_mismatch submit request (ControlTransferData.In buf)
          timeout_ms TransferDirection.In rfl hd] at h
        simp at h
    | Out buf =>
      by_cases hd : TransferDirection.Out = setup_direction request.request_type
      · rw [linux_control_transfer_match submit request (ControlTransferData.Out buf)
          timeout_ms TransferDirection.Out rfl hd] at h
        exact linux_control_submit_le submit request _ timeout_ms n tr hsub h
      · rw [linux_control_transfer_mismatch submit request (ControlTransferData.Out buf)
          timeout_ms TransferDirection.Out rfl hd] at h
        simp at h
  · intro submit caps len t tr hsub h
    exact transfer_chunks_go_le submit (max_bulk_chunk caps) len hsub (len + 1) 0 [] t tr
      (Nat.zero_le len) h
  · intro submit caps len t tr hsub h
    exact transfer_chunks_go_le submit (max_bulk_chunk caps) len hsub (len + 1) 0 [] t tr
      (Nat.zero_le len) h
  · intro view target_len
    cases view with
    | none => exact Nat.zero_le _
    | some bytes => exact Nat.min_le_right _ _

/-- C4 witness: a chunked OUT run whose second submission is short reports
24576 bytes for the 40960 byte buffer, within the bound. -/
theorem C4_returned_le_buffer_witness :
    (transfer_out_chunks (fun off c => if off = 16384 then .ok (min 8192 c) else .ok c) 0
        40960 = some (.ok 24576, [⟨0, 16384, 16384⟩, ⟨16384, 16384, 8192⟩])) ∧
    24576 ≤ 40960 :=
  ⟨rfl,
   C4_returned_le_buffer.2.2.1
     (fun off c => if off = 16384 then .ok (min 8192 c) else .ok c)
     0 40960 24576 [⟨0, 16384, 16384⟩, ⟨16384, 16384, 8192⟩]
     (by
       intro off c r h
       dsimp only at h
       by_cases ho : off = 16384
       · rw [if_pos ho] at h
         cases h
         exact Nat.min_le_right _ _
       · rw [if_neg ho] at h
         cases h
         exact Nat.le_refl _)
     rfl⟩

theorem slip_step_first_end (rest packet : List Nat) (escaped : Bool) :
    receive_slip_loop (0xC0 :: rest) packet escaped false =
      receive_slip_loop rest packet escaped true := by
  simp [receive_slip_loop]

theorem slip_step_end_nonempty (rest packet : List Nat) (escaped : Bool)
    (h : packet ≠ []) :
    receive_slip_loop (0xC0 :: rest) packet escaped true = SlipOutcome.ok packet := by
  simp [receive_slip_loop, h]

theorem slip_step_esc (rest packet : List Nat) (started : Bool) :
    receive_slip_loop (0xDB :: rest) packet false started =
      receive_slip_loop rest packet true started := by
  simp [receive_slip_loop]

theorem slip_step_escaped_end (rest packet : List Nat) (started : Bool) :
    receive_slip_loop (0xDC :: rest) packet true started =
      receive_slip_loop rest (packet ++ [0xC0]) false started := by
  simp [receive_slip_loop]

theorem slip_step_escaped_esc (rest packet : List Nat) (started : Bool) :
    receive_slip_loop (0xDD :: rest) packet true started =
      receive_slip_loop rest (packet ++ [0xDB]) false started := by
  simp [receive_slip_loop]

theorem slip_step_plain (b : Nat) (rest packet : List Nat)
    (h1 : b ≠ 0xC0) (h2 : b ≠ 0xDB) :
    receive_slip_loop (b :: rest) packet false true =
      receive_slip_loop rest (packet ++ [b]) false true := by
  simp [receive_slip_loop, h1, h2]

theorem receive_slip_loop_decode (p : List Nat) :
    ∀ acc, receive_slip_loop (slip_escape p ++ [0xC0]) acc false true =
      if acc ++ p = [] then SlipOutcome.pending else SlipOutcome.ok (acc ++ p) := by
  induction p with
  | nil =>
    intro acc
    by_cases h : acc = []
    · subst h; rfl
    · show receive_slip_loop ([] ++ [0xC0]) acc false true = _
      rw [List.nil_append, slip_step_end_nonempty [] acc false h]
      simp [h]
  | cons b t ih =>
    intro acc
    by_cases hC0 : b = 0xC0
    · subst hC0
      have he : slip_escape (0xC0 :: t) = 0xDB :: 0xDC :: slip_escape t := by
        rw [slip_escape]; rfl
      rw [he, List.cons_append, List.cons_append, slip_step_esc,
        slip_step_escaped_end, ih (acc ++ [0xC0])]
      simp
    · by_cases hDB : b = 0xDB
      · subst hDB
        have he : slip_escape (0xDB :: t) = 0xDB :: 0xDD :: slip_escape t := by
          rw [slip_escape]; rfl
        rw [he, List.cons_append, List.cons_append, slip_step_esc,
          slip_step_escaped_esc, ih (acc ++ [0xDB])]
        simp
      · have he : slip_escape (b :: t) = b :: slip_escape t := by
          rw [slip_escape]
          simp [hC0, hDB]
        rw [he, List.cons_append, slip_step_plain b _ acc hC0 hDB, ih (acc ++ [b])]
        simp

set_option maxRecDepth 4096 in
theorem lor_low_shift_all : ∀ hi < 2, ∀ i < 256, hi ||| (i <<< 8) = i * 256 + hi := by
  decide

theorem compute_ftdi_divisor_pos (B : Nat) (hpos : 0 < B) :
    compute_ftdi_divisor B = some (min (max (24000000 / B) 1) 0x1FFFF) := by
  unfold compute_ftdi_divisor
  rw [if_neg (by omega)]
  show some (min (max ((3000000 <<< 3) / B) 1) 0x1FFFF) = _
  have h8 : (3000000 <<< 3) = 24000000 := by decide
  rw [h8]

theorem compute_ftdi_divisor_eq (B : Nat) (hpos : 0 < B)
    (hlow : 1 ≤ 24000000 / B) (hhigh : 24000000 / B ≤ 0x1FFFF) :
    compute_ftdi_divisor B = some (24000000 / B) := by
  rw [compute_ftdi_divisor_pos B hpos]
  congr 1
  omega

theorem set_baud_rate_request_packing (B i : Nat) (hi : i < 256) (D : Nat)
    (hD : compute_ftdi_divisor B = some D) (hDle : D ≤ 0x1FFFF) :
    set_baud_rate_request i B =
      some { request_type := 0x40, request := 3,
             value := D % 65536,
             index := i * 256 + D / 65536 } := by
  unfold set_baud_rate_request
  rw [hD]
  have hv : D &&& 0xFFFF = D % 65536 := by
    have h := Nat.and_pow_two_sub_one_eq_mod D 16
    norm_num at h
    exact h
  have hsr : D >>> 16 = D / 65536 := by
    simp [Nat.shiftRight_eq_div_pow]
  have hdiv2 : D / 65536 < 2 := by omega
  have hand : (D / 65536) &&& 0xFFFF = D / 65536 := by
    have h := Nat.and_pow_two_sub_one_eq_mod (D / 65536) 16
    norm_num at h
    rw [h, Nat.mod_eq_of_lt (by omega)]
  simp only [Option.map_some', Option.some.injEq, FtdiBaudRequest.mk.injEq]
  refine ⟨trivial, trivial, hv, ?_⟩
  rw [hsr, hand, lor_low_shift_all (D / 65536) hdiv2 i hi]

/-- C6 (amended): for every baud rate B > 0 the FTDI divisor is the floor
of 24000000 / B clamped below at 1 and above at 0x1FFFF, so it always lies
in the range 1 to 0x1FFFF, and set_baud_rate places the low 16 bits of the
divisor in the control value and combines the remaining divisor bits with
the interface number shifted into the high byte of the control index;
whenever the unclamped quotient lies between 33 and 0x1FFFF the divisor is
the exact quotient and the achieved rate error is below 31 / 1000.  (For
quotients below 33 the bound 0.031 can fail, see the counterexample, so
the amended error bound assumes 33 ≤ 24000000 / B.) -/
theorem C6_ftdi_divisor (B i : Nat) (hpos : 0 < B) (hi : i < 256) :
    compute_ftdi_divisor B = some (min (max (24000000 / B) 1) 0x1FFFF) ∧
    (∀ D, compute_ftdi_divisor B = some D →
      1 ≤ D ∧ D ≤ 0x1FFFF ∧
      set_baud_rate_request i B =
        some { request_type := 0x40, request := 3,
               value := D % 65536,
               index := i * 256 + D / 65536 }) ∧
    (33 ≤ 24000000 / B → 24000000 / B ≤ 0x1FFFF →
      ∀ D, compute_ftdi_divisor B = some D →
        D = 24000000 / B ∧ |(24000000 : ℚ) / D - B| / B < 31 / 1000) := by
  have hdiv := compute_ftdi_divisor_pos B hpos
  refine ⟨hdiv, ?_, ?_⟩
  · intro D hD
    rw [hdiv] at hD
    obtain rfl : min (max (24000000 / B) 1) 0x1FFFF = D := Option.some_injective _ hD
    exact ⟨by omega, by omega,
      set_baud_rate_request_packing B i hi _ hdiv (by omega)⟩
  · intro hlow hhigh D hD
    have hq := compute_ftdi_divisor_eq B hpos (by omega) hhigh
    rw [hq] at hD
    obtain rfl : 24000000 / B = D := Option.some_injective _ hD
    refine ⟨rfl, ?_⟩
    set q := 24000000 / B with hqdef
    have hq0 : 0 < q := by omega
    have hle : B * q ≤ 24000000 := by
      rw [hqdef, Nat.mul_comm]
      exact Nat.div_mul_le_self 24000000 B
    have hlt : 24000000 < B * (q + 1) := Nat.lt_mul_div_succ 24000000 hpos
    have h1 : 24000000 < B * q + B := by rw [Nat.mul_succ] at hlt; exact hlt
    have h2 : 1000 * B ≤ 31 * (B * q) := by
      calc 1000 * B ≤ 1023 * B := by omega
      _ = 31 * (B * 33) := by ring
      _ ≤ 31 * (B * q) := by
          have := Nat.mul_le_mul_left B hlow
          omega
    have hkey : 24000000 * 1000 < 1031 * (B * q) := by
      generalize hm : B * q = m at h1 h2 ⊢
      omega
    have hBQ : (0 : ℚ) < B := by exact_mod_cast hpos
    have hqQ : (0 : ℚ) < q := by exact_mod_cast hq0
    have habs : |(24000000 : ℚ) / q - B| = (24000000 : ℚ) / q - B := by
      rw [abs_of_nonneg]
      rw [sub_nonneg, le_div_iff₀ hqQ]
      exact_mod_cast hle
    rw [habs, div_lt_div_iff₀ hBQ (by norm_num : (0:ℚ) < 1000)]
    rw [sub_mul, sub_lt_iff_lt_add, div_mul_eq_mul_div, div_lt_iff₀ hqQ]
    have hkeyQ : ((24000000 : ℚ)) * 1000 < 1031 * (B * q) := by exact_mod_cast hkey
    nlinarith [hkeyQ]

/-- C6 witness: baud 9600 on interface 1 gives divisor 2500, within range,
with control value 2500 and control index 256 (interface number in the
high byte, zero remaining divisor bits), and within the rate error
bound. -/
theorem C6_ftdi_divisor_witness :
    (0 < 9600) ∧ (1 < 256) ∧
    (1 ≤ 2500 ∧ 2500 ≤ 0x1FFFF ∧
     set_baud_rate_request 1 9600 =
       some { request_type := 0x40, request := 3,
              value := 2500 % 65536, index := 1 * 256 + 2500 / 65536 }) ∧
    (33 ≤ 24000000 / 9600) ∧ (24000000 / 9600 ≤ 0x1FFFF) ∧
    (2500 = 24000000 / 9600 ∧ |(24000000 : ℚ) / 2500 - 9600| / 9600 < 31 / 1000) := by
  refine ⟨by decide, by decide, ?_, by decide, by decide, ?_⟩
  · exact (C6_ftdi_divisor 9600 1 (by decide) (by decide)).2.1 2500 (by decide)
  · exact (C6_ftdi_divisor 9600 1 (by decide) (by decide)).2.2 (by decide) (by decide)
      2500 (by decide)

/-- C6 counterexample: at baud 727273 the unclamped quotient 32 is within
the claimed precondition (24000000 / 727273 is at most 0x1FFFF), yet the
achieved rate 24000000 / 32 = 750000 misses 727273 by more than 3.1
percent, refuting the claimed error bound as stated. -/
theorem C6_error_bound_fails :
    compute_ftdi_divisor 727273 = some 32 ∧
    ((24000000 : ℚ) / 727273 ≤ 0x1FFFF) ∧
    ¬ (|(24000000 : ℚ) / 32 - 727273| / 727273 < 31 / 1000) := by
  refine ⟨by decide, by norm_num, ?_⟩
  rw [show (24000000 : ℚ) / 32 = 750000 by norm_num]
  rw [show |(750000 : ℚ) - 727273| = 22727 by rw [abs_of_nonneg] <;> norm_num]
  norm_num

/-- C5 (amended): SLIP framing round trips for every non empty byte
sequence: encoding with send_slip_frame and decoding the resulting frame
with the receive side decoder yields the original sequence.  (For the
empty sequence the decoder never completes, see the counterexample.) -/
theorem C5_slip_roundtrip (p : List Nat) (hne : p ≠ []) :
    receive_slip_frame (send_slip_frame p) = SlipOutcome.ok p := by
  show receive_slip_loop (0xC0 :: (slip_escape p ++ [0xC0])) [] false false = _
  rw [slip_step_first_end, receive_slip_loop_decode p []]
  simp [hne]

/-- C5 witness: the frame for the bytes 0xC0 0x01 0xDB decodes back to
them. -/
theorem C5_slip_roundtrip_witness :
    (([0xC0, 0x01, 0xDB] : List Nat) ≠ []) ∧
    receive_slip_frame (send_slip_frame [0xC0, 0x01, 0xDB]) =
      SlipOutcome.ok [0xC0, 0x01, 0xDB] :=
  ⟨by decide, C5_slip_roundtrip [0xC0, 0x01, 0xDB] (by decide)⟩

/-- C5 counterexample: the empty byte sequence does not round trip: its
frame is the two boundary bytes 0xC0 0xC0, and the decoder treats the
second boundary as a leading boundary of a still empty packet, so it keeps
waiting for more input (the read loop never returns) instead of producing
the empty packet. -/
theorem C5_empty_roundtrip_fails :
    receive_slip_frame (send_slip_frame []) = SlipOutcome.pending ∧
    SlipOutcome.pending ≠ SlipOutcome.ok [] :=
  ⟨rfl, by decide⟩

/-- C7 (amended): the DFU wait_while_busy loop repeatedly issues GETSTATUS,
returns success as soon as status byte 0 is zero, sleeps the 24 bit little
endian poll timeout decoded from bytes 1 to 3 between polls, and returns
the Unknown error kind when the wall clock bound is exceeded (the error
type has no dedicated Timeout kind); mass_erase downloads the two byte
command 0x41 0x00 to block 0 and then waits with a 5000 ms bound under
these semantics. -/
theorem C7_wait_while_busy
    (get_status : Nat → Except Error (List Nat)) (elapsed_ms : Nat → Nat)
    (timeout_ms fuel k : Nat) (sleeps : List Nat) (buf : List Nat) :
    (get_status k = .ok buf → buf.getD 0 0 = 0 →
      wait_while_busy get_status elapsed_ms timeout_ms (fuel + 1) k sleeps =
        some (.ok (), sleeps)) ∧
    (get_status k = .ok buf → buf.getD 0 0 ≠ 0 → elapsed_ms k > timeout_ms →
      wait_while_busy get_status elapsed_ms timeout_ms (fuel + 1) k sleeps =
        some (.error Error.Unknown, sleeps)) ∧
    (get_status k = .ok buf → buf.getD 0 0 ≠ 0 → ¬ elapsed_ms k > timeout_ms →
      wait_while_busy get_status elapsed_ms timeout_ms (fuel + 1) k sleeps =
        wait_while_busy get_status elapsed_ms timeout_ms fuel (k + 1)
          (sleeps ++ [poll_timeout_of buf])) ∧
    (∀ download fl, (mass_erase download get_status elapsed_ms fl).2 =
        [⟨0, [0x41, 0x00]⟩]) ∧
    (∀ download fl, download ⟨0, [0x41, 0x00]⟩ = .ok () →
      (mass_erase download get_status elapsed_ms fl).1 =
        wait_while_busy get_status elapsed_ms 5000 fl 0 []) := by
  refine ⟨?_, ?_, ?_, ?_, ?_⟩
  · intro hg h0
    simp only [List.getD_eq_getElem?_getD] at h0
    simp [wait_while_busy, hg, h0]
  · intro hg h0 ht
    simp only [List.getD_eq_getElem?_getD] at h0
    simp [wait_while_busy, hg, h0, ht]
  · intro hg h0 ht
    simp only [List.getD_eq_getElem?_getD] at h0
    simp [wait_while_busy, hg, h0, ht]
  · intro download fl
    cases hd : download ⟨0, [0x41, 0x00]⟩ <;> simp [mass_erase, hd]
  · intro download fl hd
    unfold mass_erase
    rw [hd]

/-- C7 witness: a busy status with poll timeout 10 and a clock already past
the bound makes the loop return the Unknown error without sleeping. -/
theorem C7_wait_while_busy_witness :
    ((fun _ : Nat => (Except.ok [1, 10, 0, 0, 0, 0] : Except Error (List Nat))) 0 =
      Except.ok [1, 10, 0, 0, 0, 0]) ∧
    (([1, 10, 0, 0, 0, 0] : List Nat).getD 0 0 ≠ 0) ∧
    ((fun _ : Nat => 6000) 0 > 5000) ∧
    wait_while_busy (fun _ => .ok [1, 10, 0, 0, 0, 0]) (fun _ => 6000) 5000 1 0 [] =
      some (.error Error.Unknown, []) :=
  ⟨rfl, by decide, by decide,
   (C7_wait_while_busy (fun _ => .ok [1, 10, 0, 0, 0, 0]) (fun _ => 6000) 5000 0 0 []
     [1, 10, 0, 0, 0, 0]).2.1 rfl (by decide) (by decide)⟩

/-- C7 counterexample: a run that stays busy past the wall clock bound
returns Error.Unknown after sleeping the decoded 10 ms poll timeout once;
the claimed dedicated Timeout error kind does not exist in the error type,
whose only constructors are Os, NotSupported and Unknown, and Unknown is
the same value the library returns for unrelated failures. -/
theorem C7_timeout_returns_unknown :
    wait_while_busy (fun _ => .ok [1, 10, 0, 0, 0, 0]) (fun k => 6000 * k) 5000 3 0 [] =
      some (.error Error.Unknown, [10]) ∧
    Error.Unknown ≠ Error.NotSupported ∧ (∀ e : Int, Error.Unknown ≠ Error.Os e) :=
  ⟨rfl, by decide, fun e h => Error.noConfusion h⟩

theorem utf16_chars_no_surrogates (l : List Nat)
    (h : ∀ u ∈ l, is_high_surrogate u = false ∧ is_low_surrogate u = false) :
    utf16_chars l = some l := by
  induction l with
  | nil => rfl
  | cons u t ih =>
    have hu := h u (List.mem_cons_self u t)
    have iht := ih (fun v hv => h v (List.mem_cons_of_mem u hv))
    cases t with
    | nil => simp [utf16_chars, hu.1, hu.2]
    | cons v t2 => simp [utf16_chars, hu.1, hu.2, iht]

/-- C8 (amended): read_string_descriptor_ascii fails with the Unknown
error kind when the control transfer returns fewer than 2 bytes or when
the type byte is not 0x03 (the length check is on the transferred byte
count, not on the declared header length); a declared header length below
2 with at least 2 transferred bytes makes the source panic on a usize
underflow instead of failing with Unknown; otherwise the declared length
determines (b_length - 2) / 2 little endian UTF-16 code units, which are
decoded as UTF-16 rather than checked for zero high bytes, and for a well
formed descriptor of N non surrogate code units the result is the decoded
string of N characters. -/
theorem C8_string_descriptor_ascii (e : Error) (len N : Nat) (buf : List Nat) :
    (read_string_descriptor_ascii (.error e) = some (.error e)) ∧
    (len < 2 → read_string_descriptor_ascii (.ok (len, buf)) = some (.error Error.Unknown)) ∧
    (2 ≤ len → buf.getD 1 0 ≠ 0x03 →
      read_string_descriptor_ascii (.ok (len, buf)) = some (.error Error.Unknown)) ∧
    (2 ≤ len → buf.getD 1 0 = 0x03 → buf.getD 0 0 = 2 + 2 * N →
      (∀ u ∈ (List.range N).map (fun i =>
          buf.getD (2 + i * 2) 0 + 256 * buf.getD (2 + i * 2 + 1) 0),
        is_high_surrogate u = false ∧ is_low_surrogate u = false) →
      read_string_descriptor_ascii (.ok (len, buf)) =
        some (.ok ((List.range N).map (fun i =>
          buf.getD (2 + i * 2) 0 + 256 * buf.getD (2 + i * 2 + 1) 0))) ∧
      ((List.range N).map (fun i =>
          buf.getD (2 + i * 2) 0 + 256 * buf.getD (2 + i * 2 + 1) 0)).length = N) ∧
    (2 ≤ len → buf.getD 1 0 = 0x03 → buf.getD 0 0 < 2 →
      read_string_descriptor_ascii (.ok (len, buf)) = Option.none) := by
  refine ⟨rfl, ?_, ?_, ?_, ?_⟩
  · intro h
    simp [read_string_descriptor_ascii, h]
  · intro hge ht
    simp only [List.getD_eq_getElem?_getD] at ht
    simp [read_string_descriptor_ascii, Nat.not_lt.mpr hge, ht]
  · intro hge ht hb hsur
    have h1 : ¬ len < 2 := Nat.not_lt.mpr hge
    have h2 : ¬ (2 + 2 * N < 2) := by omega
    have hn : (2 + 2 * N - 2) / 2 = N := by omega
    have hdecode := utf16_chars_no_surrogates _ hsur
    refine ⟨?_, by simp⟩
    simp only [List.getD_eq_getElem?_getD] at ht hb hdecode
    simp [read_string_descriptor_ascii, h1, ht, hb, h2, hn, hdecode]
  · intro hge ht hb
    have h1 : ¬ len < 2 := Nat.not_lt.mpr hge
    simp only [List.getD_eq_getElem?_getD] at ht hb
    simp [read_string_descriptor_ascii, h1, ht, hb]

/-- C8 witness: a four byte descriptor of declared length 4 and type 0x03
carrying the single code unit 0x0041 decodes to the one character string
with scalar value 65. -/
theorem C8_string_descriptor_ascii_witness :
    (2 ≤ 4) ∧
    (([4, 3, 0x41, 0x00] : List Nat).getD 1 0 = 0x03) ∧
    (([4, 3, 0x41, 0x00] : List Nat).getD 0 0 = 2 + 2 * 1) ∧
    (read_string_descriptor_ascii (.ok (4, [4, 3, 0x41, 0x00])) = some (.ok [0x41]) ∧
     (([0x41] : List Nat)).length = 1) := by
  refine ⟨by decide, by decide, by decide, ?_⟩
  have h := (C8_string_descriptor_ascii Error.Unknown 4 1 [4, 3, 0x41, 0x00]).2.2.2.1
    (by decide) (by decide) (by decide) (by decide)
  exact ⟨h.1, rfl⟩

/-- C8 counterexample: a descriptor whose single code unit 0x0141 has a non
zero high byte is accepted and decoded (the source uses UTF-16 decoding,
not an ASCII high byte check), returning the one character string with
scalar value 0x0141 instead of the failure the claim requires. -/
theorem C8_high_byte_accepted :
    read_string_descriptor_ascii (.ok (4, [4, 3, 0x41, 0x01])) = some (.ok [0x0141]) ∧
    (some (Except.ok [0x0141]) : Option (Except Error (List Nat))) ≠
      some (.error Error.Unknown) := by
  refine ⟨rfl, ?_⟩
  intro h
  injection h with h2
  exact Except.noConfusion h2

/-- C9 (amended): when the underlying bulk transfer succeeds but writing
the log line to the sink fails, ChannelLogger write and read convert the
sink failure to Error.Unknown and return that error as the operation
result: the byte count of the successful transfer is discarded rather than
returned.  When the sink succeeds the byte count is returned. -/
theorem C9_logger_sink_failure (n : Nat) :
    channel_logger_write (.ok n) (.error ()) = .error Error.Unknown ∧
    channel_logger_read (.ok n) (.error ()) = .error Error.Unknown ∧
    channel_logger_write (.ok n) (.ok ()) = .ok n ∧
    channel_logger_read (.ok n) (.ok ()) = .ok n ∧
    (∀ bulk sink, channel_logger_write bulk sink = channel_logger_read bulk sink) := by
  refine ⟨rfl, rfl, rfl, rfl, ?_⟩
  intro bulk sink
  cases bulk <;> cases sink <;> rfl

/-- C9 witness: the write path at byte count 5. -/
theorem C9_logger_sink_failure_witness :
    channel_logger_write (.ok 5) (.error ()) = .error Error.Unknown ∧
    channel_logger_write (.ok 5) (.ok ()) = .ok 5 :=
  ⟨(C9_logger_sink_failure 5).1, (C9_logger_sink_failure 5).2.2.1⟩

/-- C9 counterexample: with a successful five byte transfer and a failing
sink, write returns the Unknown error, which is not the Ok byte count the
claim promises the caller still receives. -/
theorem C9_sink_failure_blocks_result :
    channel_logger_write (.ok 5) (.error ()) = .error Error.Unknown ∧
    (Except.error Error.Unknown : Except Error Nat) ≠ .ok 5 :=
  ⟨rfl, fun h => Except.noConfusion h⟩

/-- C10 witness: a GET_DESCRIPTOR style IN request_type with an empty Out
payload is rejected by both backends. -/
theorem C10_empty_payload_checked_witness :
    ((0x80 : Nat) &&& 0x80 ≠ 0) ∧
    (linux_control_transfer (fun _ => .ok 0) ⟨0x80, 6, 0, 0⟩
        (ControlTransferData.Out []) 1000 = (.error invalid_argument, []) ∧
     windows_control_transfer (.ok ()) (fun _ => .ok 0) ⟨0x80, 6, 0, 0⟩
        (ControlTransferData.Out []) = (.error Error.NotSupported, [])) :=
  ⟨by decide,
   (C10_empty_payload_checked (fun _ => .ok 0) (fun _ => .ok 0)
     ⟨0x80, 6, 0, 0⟩ 1000).1 (by decide)⟩

end Rusb
